import Mathlib

/-!
Verification of the AutoHub dealership-marketplace core: the rental-booking
availability checker and the multi-role status-transition workflow over
Car, RentalBooking, Purchase and CompanyRegistrationRequest, shallowly
embedded from the Django view layer (`bookingapp/views.py`,
`carsapp/views.py`, `companyapp/views.py`) and the model definitions.

Dates are modelled as day numbers (`Nat`); monetary amounts as `Int`.
Each HTTP action becomes a pure function returning `Except AppError _`;
an `error` result corresponds to an HTTP 4xx response where the handler
returns without saving, so the stored entity is unchanged.
-/

namespace AutoHub

/-- Roles from `autoapp.models.User.ROLE_CHOICES`. -/
inductive Role where
  | USER
  | DEALERSHIP_ADMIN
  | SUPER_ADMIN
deriving DecidableEq, Repr

/-- A user: identity, role, and optional dealership link (`User.dealership`). -/
structure User where
  id : Nat
  role : Role
  dealership : Option Nat
deriving DecidableEq, Repr

/-- Car statuses from `carsapp.models.Car.STATUS_CHOICES`. -/
inductive CarStatus where
  | PENDING
  | APPROVED
  | REJECTED
  | SOLD
  | RENTED
deriving DecidableEq, Repr

/-- The fields of `carsapp.models.Car` that the workflow logic reads or
writes (plus identity and ownership links). -/
structure Car where
  id : Nat
  dealership : Nat
  seller : Option Nat
  is_company_owned : Bool
  price : Int
  rental_price_per_day : Int
  status : CarStatus
  is_for_sale : Bool
  is_for_rent : Bool
  approved_by : Option Nat
  approved_at : Option Nat
deriving DecidableEq, Repr

/-- Booking statuses from `bookingapp.models.RentalBooking.STATUS_CHOICES`. -/
inductive BookingStatus where
  | PENDING
  | APPROVED
  | ACTIVE
  | COMPLETED
  | CANCELLED
deriving DecidableEq, Repr

/-- The status name as it appears in error-message interpolation. -/
def BookingStatus.str : BookingStatus → String
  | .PENDING => "PENDING"
  | .APPROVED => "APPROVED"
  | .ACTIVE => "ACTIVE"
  | .COMPLETED => "COMPLETED"
  | .CANCELLED => "CANCELLED"

/-- A rental booking (`bookingapp.models.RentalBooking`). -/
structure Booking where
  id : Nat
  car : Nat
  user : Nat
  start_date : Nat
  end_date : Nat
  total_price : Int
  status : BookingStatus
deriving DecidableEq, Repr

/-- Payment statuses from `bookingapp.models.Purchase.PAYMENT_STATUS`. -/
inductive PaymentStatus where
  | PENDING
  | PAID
  | FAILED
deriving DecidableEq, Repr

/-- A purchase (`bookingapp.models.Purchase`); `car` is a OneToOne link. -/
structure Purchase where
  id : Nat
  car : Nat
  buyer : Nat
  price_at_purchase : Int
  payment_status : PaymentStatus
deriving DecidableEq, Repr

/-- Error kinds, matching the HTTP statuses the views return:
403 FORBIDDEN, 400 BAD_REQUEST, 404 NOT_FOUND. -/
inductive ErrKind where
  | forbidden
  | badRequest
  | notFound
deriving DecidableEq, Repr

/-- An error response: HTTP kind plus the `error` message string. -/
structure AppError where
  kind : ErrKind
  msg : String
deriving DecidableEq, Repr

/-! ## Availability checker

`RentalBookingViewSet.create` (views.py lines 76-90) and
`RentalBookingViewSet.check_availability` (lines 346-355) both run the same
query: bookings of the car with status in {APPROVED, ACTIVE}, filtered by a
disjunction of three `Q` range conditions. -/

/-- A booking qualifies for the conflict query: same car, status APPROVED
or ACTIVE (the `status__in=['APPROVED', 'ACTIVE']` filter). -/
def qualifies (carId : Nat) (b : Booking) : Bool :=
  b.car == carId && (b.status == BookingStatus.APPROVED || b.status == BookingStatus.ACTIVE)

/-- The three-way `Q` disjunction of the conflict query:
`Q(start_date__lte=s, end_date__gt=s) | Q(start_date__lt=e, end_date__gte=e)
| Q(start_date__gte=s, end_date__lte=e)`. -/
def blocksQ (s e : Nat) (b : Booking) : Bool :=
  (b.start_date ≤ s && s < b.end_date) ||
  (b.start_date < e && e ≤ b.end_date) ||
  (s ≤ b.start_date && b.end_date ≤ e)

/-- The conflict query result: qualifying bookings of the car matching the
`Q` disjunction. -/
def conflictQuery (bookings : List Booking) (carId s e : Nat) : List Booking :=
  (bookings.filter (qualifies carId)).filter (blocksQ s e)

/-- `conflicts.exists()`: true iff the conflict query is non-empty. This is
the check run both at booking creation and by `check_availability`
(which reports `available = !hasConflict`). -/
def hasConflict (bookings : List Booking) (carId s e : Nat) : Bool :=
  !(conflictQuery bookings carId s e).isEmpty

/-- The end-exclusive overlap predicate as the spec words it:
ranges `[s1,e1)` and `[s2,e2)` overlap iff `s1 < e2 AND s2 < e1`. -/
def specOverlap (s e : Nat) (b : Booking) : Bool :=
  b.start_date < e && s < b.end_date

/-- An APPROVED booking of car 1 on days [12, 22), used as a concrete store. -/
def sampleBooking : Booking :=
  { id := 1, car := 1, user := 5, start_date := 12, end_date := 22,
    total_price := 100, status := BookingStatus.APPROVED }

/-! ## RentalBooking transition actions

Each `@action` method of `RentalBookingViewSet` becomes a pure function on
the loaded booking (and its car, read for the dealership check); an `error`
result is the early `Response` return before any `save()`. -/

namespace RentalBookingViewSet

/-- `RentalBookingViewSet.approve` (views.py 185-208). -/
def approve (actor : User) (car : Car) (b : Booking) : Except AppError Booking :=
  if actor.role ≠ Role.DEALERSHIP_ADMIN ∨ actor.dealership ≠ some car.dealership then
    .error ⟨ErrKind.forbidden, "You are not authorized to approve this booking"⟩
  else if b.status ≠ BookingStatus.PENDING then
    .error ⟨ErrKind.badRequest, "Cannot approve a booking with status: " ++ b.status.str⟩
  else
    .ok { b with status := BookingStatus.APPROVED }

/-- `RentalBookingViewSet.reject` (views.py 210-238). -/
def reject (actor : User) (car : Car) (b : Booking) : Except AppError Booking :=
  if actor.role ≠ Role.DEALERSHIP_ADMIN ∨ actor.dealership ≠ some car.dealership then
    .error ⟨ErrKind.forbidden, "You are not authorized to reject this booking"⟩
  else if b.status ≠ BookingStatus.PENDING then
    .error ⟨ErrKind.badRequest, "Cannot reject a booking with status: " ++ b.status.str⟩
  else
    .ok { b with status := BookingStatus.CANCELLED }

/-- `RentalBookingViewSet.start_rental` (views.py 240-263). -/
def start_rental (actor : User) (car : Car) (b : Booking) : Except AppError Booking :=
  if actor.role ≠ Role.DEALERSHIP_ADMIN ∨ actor.dealership ≠ some car.dealership then
    .error ⟨ErrKind.forbidden, "You are not authorized to start this rental"⟩
  else if b.status ≠ BookingStatus.APPROVED then
    .error ⟨ErrKind.badRequest, "Can only start rentals with APPROVED status"⟩
  else
    .ok { b with status := BookingStatus.ACTIVE }

/-- `RentalBookingViewSet.complete_rental` (views.py 265-288). -/
def complete_rental (actor : User) (car : Car) (b : Booking) : Except AppError Booking :=
  if actor.role ≠ Role.DEALERSHIP_ADMIN ∨ actor.dealership ≠ some car.dealership then
    .error ⟨ErrKind.forbidden, "You are not authorized to complete this rental"⟩
  else if b.status ≠ BookingStatus.ACTIVE then
    .error ⟨ErrKind.badRequest, "Can only complete rentals with ACTIVE status"⟩
  else
    .ok { b with status := BookingStatus.COMPLETED }

/-- `RentalBookingViewSet.cancel` (views.py 290-314): authorization checks
only "is the renter, or is any DEALERSHIP_ADMIN" — no dealership match. -/
def cancel (actor : User) (b : Booking) : Except AppError Booking :=
  if b.user ≠ actor.id ∧ actor.role ≠ Role.DEALERSHIP_ADMIN then
    .error ⟨ErrKind.forbidden, "You are not authorized to cancel this booking"⟩
  else if b.status ≠ BookingStatus.PENDING ∧ b.status ≠ BookingStatus.APPROVED then
    .error ⟨ErrKind.badRequest, "Can only cancel PENDING or APPROVED bookings"⟩
  else
    .ok { b with status := BookingStatus.CANCELLED }

/-- `RentalBookingViewSet.create` (views.py 35-117), after field presence,
car lookup and date parsing: the availability guard, price derivation and
insert.  Returns the new store on success. -/
def create (actor : User) (car : Car) (bookings : List Booking)
    (newId s e : Nat) : Except AppError (List Booking) :=
  if ¬ car.is_for_rent ∨ car.status ≠ CarStatus.APPROVED then
    .error ⟨ErrKind.badRequest, "This car is not available for rent"⟩
  else if e ≤ s then
    .error ⟨ErrKind.badRequest, "End date must be after start date"⟩
  else if hasConflict bookings car.id s e then
    .error ⟨ErrKind.badRequest, "Car is not available for the selected dates"⟩
  else
    let nb : Booking :=
      { id := newId, car := car.id, user := actor.id,
        start_date := s, end_date := e,
        total_price := (e - s : Nat) * car.rental_price_per_day,
        status := BookingStatus.PENDING }
    .ok (bookings ++ [nb])

end RentalBookingViewSet

/-- The booking actions, as a single dispatcher. -/
inductive BookingAction where
  | approve
  | reject
  | start_rental
  | complete_rental
  | cancel
deriving DecidableEq, Repr

/-- Dispatch a booking transition action to its view function. -/
def transitionBooking (actor : User) (car : Car) (b : Booking) :
    BookingAction → Except AppError Booking
  | .approve => RentalBookingViewSet.approve actor car b
  | .reject => RentalBookingViewSet.reject actor car b
  | .start_rental => RentalBookingViewSet.start_rental actor car b
  | .complete_rental => RentalBookingViewSet.complete_rental actor car b
  | .cancel => RentalBookingViewSet.cancel actor b

/-- `booking.save()`: replace the booking with the same id in the store. -/
def saveBooking (bs : List Booking) (b2 : Booking) : List Booking :=
  bs.map (fun b => if b.id = b2.id then b2 else b)

/-- Run one booking action against the store: load by id, transition, and
save on success; on an error response the store is unchanged. -/
def runBookingAction (actor : User) (car : Car) (a : BookingAction)
    (bs : List Booking) (bid : Nat) : List Booking × Option AppError :=
  match bs.find? (fun b => b.id == bid) with
  | none => (bs, some ⟨ErrKind.notFound, "Not found"⟩)
  | some b =>
    match transitionBooking actor car b a with
    | .ok b2 => (saveBooking bs b2, none)
    | .error err => (bs, some err)

/-! ## Car transition actions (`carsapp/views.py`) -/

/-- The status name as interpolated into car error messages. -/
def CarStatus.str : CarStatus → String
  | .PENDING => "PENDING"
  | .APPROVED => "APPROVED"
  | .REJECTED => "REJECTED"
  | .SOLD => "SOLD"
  | .RENTED => "RENTED"

namespace CarViewSet

/-- `CarViewSet.approve` (carsapp/views.py 143-168); `now` is the
`timezone.now()` stamp. -/
def approve (actor : User) (now : Nat) (c : Car) : Except AppError Car :=
  if actor.role ≠ Role.DEALERSHIP_ADMIN ∨ actor.dealership ≠ some c.dealership then
    .error ⟨ErrKind.forbidden, "You are not authorized to approve this car"⟩
  else if c.status ≠ CarStatus.PENDING then
    .error ⟨ErrKind.badRequest, "Cannot approve a car with status: " ++ c.status.str⟩
  else
    .ok { c with status := CarStatus.APPROVED,
                 approved_by := some actor.id, approved_at := some now }

/-- `CarViewSet.reject` (carsapp/views.py 170-200). -/
def reject (actor : User) (now : Nat) (c : Car) : Except AppError Car :=
  if actor.role ≠ Role.DEALERSHIP_ADMIN ∨ actor.dealership ≠ some c.dealership then
    .error ⟨ErrKind.forbidden, "You are not authorized to reject this car"⟩
  else if c.status ≠ CarStatus.PENDING then
    .error ⟨ErrKind.badRequest, "Cannot reject a car with status: " ++ c.status.str⟩
  else
    .ok { c with status := CarStatus.REJECTED,
                 approved_by := some actor.id, approved_at := some now }

/-- `CarViewSet.mark_sold` (carsapp/views.py 202-221): the guard forbids
only when the dealership differs AND the role is neither DEALERSHIP_ADMIN
nor SUPER_ADMIN; there is no check on the car's current status. -/
def mark_sold (actor : User) (c : Car) : Except AppError Car :=
  if actor.dealership ≠ some c.dealership ∧
      actor.role ≠ Role.DEALERSHIP_ADMIN ∧ actor.role ≠ Role.SUPER_ADMIN then
    .error ⟨ErrKind.forbidden, "You are not authorized to update this car"⟩
  else
    .ok { c with status := CarStatus.SOLD,
                 is_for_sale := false, is_for_rent := false }

end CarViewSet

/-! ## Purchase actions (`bookingapp/views.py`, `PurchaseViewSet`) -/

namespace PurchaseViewSet

/-- `PurchaseViewSet.create` (views.py 387-444), after the car lookup:
guards on SOLD, availability-for-sale, and an existing purchase for the
car (the reverse OneToOne `car.purchase`); on success inserts the purchase
with `price_at_purchase` snapshotted and saves the car as SOLD.  Returns
the new purchase store and car store. -/
def create (actor : User) (cars : List Car) (purchases : List Purchase)
    (newId carId : Nat) : Except AppError (List Purchase × List Car) :=
  match cars.find? (fun c => c.id == carId) with
  | none => .error ⟨ErrKind.notFound, "Car not found"⟩
  | some car =>
    if car.status = CarStatus.SOLD then
      .error ⟨ErrKind.badRequest, "This car is already sold"⟩
    else if ¬ car.is_for_sale ∨ car.status ≠ CarStatus.APPROVED then
      .error ⟨ErrKind.badRequest, "This car is not available for purchase"⟩
    else if purchases.any (fun p => p.car == car.id) then
      .error ⟨ErrKind.badRequest, "This car is already purchased"⟩
    else
      let np : Purchase :=
        { id := newId, car := car.id, buyer := actor.id,
          price_at_purchase := car.price,
          payment_status := PaymentStatus.PENDING }
      let soldCar := { car with status := CarStatus.SOLD }
      .ok (purchases ++ [np],
           cars.map (fun c => if c.id = car.id then soldCar else c))

/-- `PurchaseViewSet.mark_paid` (views.py 469-492): authorization is "is
the buyer, or is any DEALERSHIP_ADMIN"; already-PAID is an error. -/
def mark_paid (actor : User) (p : Purchase) : Except AppError Purchase :=
  if p.buyer ≠ actor.id ∧ actor.role ≠ Role.DEALERSHIP_ADMIN then
    .error ⟨ErrKind.forbidden, "You are not authorized to update this purchase"⟩
  else if p.payment_status = PaymentStatus.PAID then
    .error ⟨ErrKind.badRequest, "This purchase is already paid"⟩
  else
    .ok { p with payment_status := PaymentStatus.PAID }

/-- `PurchaseViewSet.mark_failed` (views.py 494-515): same authorization
as `mark_paid`; no check on the current payment status; sets FAILED and
reverts the linked car to APPROVED. -/
def mark_failed (actor : User) (p : Purchase) (c : Car) :
    Except AppError (Purchase × Car) :=
  if p.buyer ≠ actor.id ∧ actor.role ≠ Role.DEALERSHIP_ADMIN then
    .error ⟨ErrKind.forbidden, "You are not authorized to update this purchase"⟩
  else
    .ok ({ p with payment_status := PaymentStatus.FAILED },
         { c with status := CarStatus.APPROVED })

end PurchaseViewSet

/-! ## Company registration (`companyapp/views.py`) -/

/-- Request statuses from `CompanyRegistrationRequest.STATUS_CHOICES`. -/
inductive ReqStatus where
  | PENDING
  | APPROVED
  | REJECTED
deriving DecidableEq, Repr

/-- The lower-cased status name interpolated into the review error
messages (`registration_request.status.lower()`). -/
def ReqStatus.strLower : ReqStatus → String
  | .PENDING => "pending"
  | .APPROVED => "approved"
  | .REJECTED => "rejected"

/-- A `CompanyRegistrationRequest`. -/
structure RegRequest where
  id : Nat
  company_name : String
  company_email : String
  company_phone : String
  company_city : String
  company_license_number : String
  company_license_document : String
  status : ReqStatus
  reviewed_by : Option Nat
  reviewed_at : Option Nat
deriving DecidableEq, Repr

/-- A `DealershipCompany` record. -/
structure DealershipCompany where
  id : Nat
  name : String
  email : String
  phone : String
  city : String
  license_number : String
  license_document : String
  is_active : Bool
  approved_by : Option Nat
  approved_at : Nat
deriving DecidableEq, Repr

namespace CompanyRegistrationViewSet

/-- `CompanyRegistrationViewSet.approve` (companyapp/views.py 55-96):
superadmin only; PENDING only; creates the DealershipCompany from the
request fields with approver and timestamp stamped, then marks the
request APPROVED with reviewer stamps. -/
def approve (actor : User) (now newCompanyId : Nat) (r : RegRequest)
    (companies : List DealershipCompany) :
    Except AppError (RegRequest × List DealershipCompany) :=
  if actor.role ≠ Role.SUPER_ADMIN then
    .error ⟨ErrKind.forbidden, "Only superadmin can approve company registrations"⟩
  else if r.status ≠ ReqStatus.PENDING then
    .error ⟨ErrKind.badRequest,
      "Cannot approve a " ++ r.status.strLower ++ " request"⟩
  else
    let d : DealershipCompany :=
      { id := newCompanyId, name := r.company_name, email := r.company_email,
        phone := r.company_phone, city := r.company_city,
        license_number := r.company_license_number,
        license_document := r.company_license_document,
        is_active := true, approved_by := some actor.id, approved_at := now }
    let r2 := { r with status := ReqStatus.APPROVED,
                       reviewed_by := some actor.id, reviewed_at := some now }
    .ok (r2, companies ++ [d])

/-- `CompanyRegistrationViewSet.reject` (companyapp/views.py 98-129). -/
def reject (actor : User) (now : Nat) (r : RegRequest) :
    Except AppError RegRequest :=
  if actor.role ≠ Role.SUPER_ADMIN then
    .error ⟨ErrKind.forbidden, "Only superadmin can reject company registrations"⟩
  else if r.status ≠ ReqStatus.PENDING then
    .error ⟨ErrKind.badRequest,
      "Cannot reject a " ++ r.status.strLower ++ " request"⟩
  else
    .ok { r with status := ReqStatus.REJECTED,
                 reviewed_by := some actor.id, reviewed_at := some now }

end CompanyRegistrationViewSet

/-! ## Spec-side tables and invariants -/

/-- The booking transition table as the spec words it:
PENDING→{APPROVED,CANCELLED}, APPROVED→{ACTIVE,CANCELLED},
ACTIVE→COMPLETED. -/
def allowedBySpec : BookingStatus → BookingAction → Bool
  | .PENDING, .approve => true
  | .PENDING, .reject => true
  | .PENDING, .cancel => true
  | .APPROVED, .start_rental => true
  | .APPROVED, .cancel => true
  | .ACTIVE, .complete_rental => true
  | _, _ => false

/-- The status each action moves a booking to when it succeeds. -/
def actionTarget : BookingAction → BookingStatus
  | .approve => BookingStatus.APPROVED
  | .reject => BookingStatus.CANCELLED
  | .start_rental => BookingStatus.ACTIVE
  | .complete_rental => BookingStatus.COMPLETED
  | .cancel => BookingStatus.CANCELLED

/-- The authorization guard of each booking action, as the view checks it:
`cancel` asks only "renter or any DEALERSHIP_ADMIN"; the other four ask
"DEALERSHIP_ADMIN of the booked car's dealership". -/
@[reducible] def bookingAuthOk (actor : User) (car : Car) (b : Booking) : BookingAction → Prop
  | .cancel => b.user = actor.id ∨ actor.role = Role.DEALERSHIP_ADMIN
  | _ => actor.role = Role.DEALERSHIP_ADMIN ∧ actor.dealership = some car.dealership

/-- End-exclusive overlap between two stored bookings. -/
@[reducible] def bookingsOverlap (b1 b2 : Booking) : Prop :=
  b1.start_date < b2.end_date ∧ b2.start_date < b1.end_date

/-- The C2 invariant: for each car, APPROVED/ACTIVE bookings are pairwise
non-overlapping. -/
@[reducible] def approvedActiveNonOverlapping (bs : List Booking) : Prop :=
  ∀ b1 ∈ bs, ∀ b2 ∈ bs, b1.id ≠ b2.id → b1.car = b2.car →
    (b1.status = BookingStatus.APPROVED ∨ b1.status = BookingStatus.ACTIVE) →
    (b2.status = BookingStatus.APPROVED ∨ b2.status = BookingStatus.ACTIVE) →
    ¬ bookingsOverlap b1 b2

/-- The OneToOne invariant: no two distinct purchases reference one car. -/
@[reducible] def atMostOnePurchasePerCar (ps : List Purchase) : Prop :=
  ∀ p1 ∈ ps, ∀ p2 ∈ ps, p1.car = p2.car → p1 = p2

/-! ## Concrete entities for witnesses and counterexamples -/

/-- A dealership admin of dealership 1. -/
def adminD1 : User :=
  { id := 10, role := Role.DEALERSHIP_ADMIN, dealership := some 1 }

/-- A dealership admin of dealership 2. -/
def adminD2 : User :=
  { id := 20, role := Role.DEALERSHIP_ADMIN, dealership := some 2 }

/-- A regular user. -/
def renterU : User := { id := 30, role := Role.USER, dealership := none }

/-- An APPROVED car of dealership 1, for sale and for rent. -/
def carD1 : Car :=
  { id := 1, dealership := 1, seller := none, is_company_owned := true,
    price := 5000, rental_price_per_day := 40, status := CarStatus.APPROVED,
    is_for_sale := true, is_for_rent := true,
    approved_by := none, approved_at := none }

/-- The same car after it was sold. -/
def soldCarD1 : Car := { carD1 with status := CarStatus.SOLD }

/-- A PENDING booking of car 1 on [0, 10). -/
def pendingB1 : Booking :=
  { id := 1, car := 1, user := 30, start_date := 0, end_date := 10,
    total_price := 400, status := BookingStatus.PENDING }

/-- A PENDING booking of car 1 on [5, 15), overlapping `pendingB1`. -/
def pendingB2 : Booking :=
  { id := 2, car := 1, user := 31, start_date := 5, end_date := 15,
    total_price := 400, status := BookingStatus.PENDING }

/-- The store after the dealership-1 admin approves booking 1 and then
booking 2 on the store `[pendingB1, pendingB2]`. -/
def doubleApproveStore : List Booking :=
  (runBookingAction adminD1 carD1 BookingAction.approve
    ((runBookingAction adminD1 carD1 BookingAction.approve
      [pendingB1, pendingB2] 1).1) 2).1

/-- A PENDING purchase of car 1 by user 30. -/
def purchaseP1 : Purchase :=
  { id := 1, car := 1, buyer := 30, price_at_purchase := 5000,
    payment_status := PaymentStatus.PENDING }

/-- A PAID purchase of car 1 by user 30. -/
def paidPurchase : Purchase :=
  { purchaseP1 with id := 2, payment_status := PaymentStatus.PAID }

/-- A PENDING registration request. -/
def pendingRequest : RegRequest :=
  { id := 1, company_name := "Acme Cars", company_email := "acme@cars.example",
    company_phone := "123", company_city := "Oslo",
    company_license_number := "LIC-7", company_license_document := "doc.pdf",
    status := ReqStatus.PENDING, reviewed_by := none, reviewed_at := none }

/-- A superadmin. -/
def superA : User := { id := 1, role := Role.SUPER_ADMIN, dealership := none }

/-- The approved car after the dedicated mark-sold action. -/
def soldFlaggedCarD1 : Car :=
  { carD1 with
    status := CarStatus.SOLD
    is_for_sale := false
    is_for_rent := false }

/-! ## Theorems -/

/-- Claim C1: for every car and candidate range with start strictly before
end, over a store whose bookings all have start strictly before end (the
store invariant creation enforces), the conflict check reports a conflict
iff some booking for that car with status APPROVED or ACTIVE satisfies the
end-exclusive overlap rule `s1 < e2 AND s2 < e1`; PENDING, CANCELLED and
COMPLETED bookings never block, and back-to-back bookings never conflict. -/
theorem hasConflict_iff_specOverlap (bookings : List Booking) (carId s e : Nat)
    (hse : s < e) (hvalid : ∀ b ∈ bookings, b.start_date < b.end_date) :
    hasConflict bookings carId s e = true ↔
      ∃ b ∈ bookings, qualifies carId b = true ∧ specOverlap s e b = true := by
  simp only [hasConflict, conflictQuery, Bool.not_eq_true',
    List.isEmpty_eq_false_iff_exists_mem, List.mem_filter]
  constructor
  · rintro ⟨b, ⟨hbmem, hbq⟩, hb2⟩
    refine ⟨b, hbmem, hbq, ?_⟩
    have hv := hvalid b hbmem
    simp only [blocksQ, specOverlap, Bool.or_eq_true, Bool.and_eq_true,
      decide_eq_true_eq] at hb2 ⊢
    omega
  · rintro ⟨b, hbmem, hbq, hbo⟩
    refine ⟨b, ⟨hbmem, hbq⟩, ?_⟩
    simp only [blocksQ, specOverlap, Bool.or_eq_true, Bool.and_eq_true,
      decide_eq_true_eq] at hbo ⊢
    omega

/-- Witness for C1: the equivalence instantiated on a one-booking store and
the candidate range [10, 20), discharging both hypotheses. -/
theorem hasConflict_iff_specOverlap_witness :
    hasConflict [sampleBooking] 1 10 20 = true ↔
      ∃ b ∈ [sampleBooking], qualifies 1 b = true ∧ specOverlap 10 20 b = true :=
  hasConflict_iff_specOverlap [sampleBooking] 1 10 20 (by decide) (by decide)

/-- Claim C2 (code bug): `approve` does not re-check date conflicts.  On a
store holding two PENDING bookings of car 1 with overlapping ranges
[0, 10) and [5, 15), the dealership-1 admin's approve succeeds on booking 1
and then again on booking 2, and the resulting store violates the
pairwise-non-overlap invariant for APPROVED/ACTIVE bookings. -/
theorem approve_double_booking_bug :
    (runBookingAction adminD1 carD1 BookingAction.approve
      [pendingB1, pendingB2] 1).2 = none ∧
    (runBookingAction adminD1 carD1 BookingAction.approve
      ((runBookingAction adminD1 carD1 BookingAction.approve
        [pendingB1, pendingB2] 1).1) 2).2 = none ∧
    ¬ approvedActiveNonOverlapping doubleApproveStore := by
  decide

/-- Claim C10: `mark_sold` has no precondition on the car's current status:
any actor passing its authorization guard marks any car SOLD and clears
both flags, from every starting status, with no transition error. -/
theorem mark_sold_no_status_precondition (actor : User) (c : Car)
    (hauth : actor.dealership = some c.dealership ∨
      actor.role = Role.DEALERSHIP_ADMIN ∨ actor.role = Role.SUPER_ADMIN) :
    CarViewSet.mark_sold actor c =
      Except.ok { c with status := CarStatus.SOLD,
                         is_for_sale := false, is_for_rent := false } := by
  rcases hauth with h | h | h <;> simp [CarViewSet.mark_sold, h]

/-- Witness for C10: a dealership admin (of another dealership, which the
guard accepts) marks a RENTED car SOLD. -/
theorem mark_sold_no_status_precondition_witness :
    (adminD2.dealership = some carD1.dealership ∨
      adminD2.role = Role.DEALERSHIP_ADMIN ∨ adminD2.role = Role.SUPER_ADMIN) ∧
    CarViewSet.mark_sold adminD2 { carD1 with status := CarStatus.RENTED } =
      Except.ok { carD1 with status := CarStatus.SOLD,
                             is_for_sale := false, is_for_rent := false } :=
  ⟨Or.inr (Or.inl rfl),
   mark_sold_no_status_precondition adminD2 _ (Or.inr (Or.inl rfl))⟩

/-- Claim C6: marking an already-PAID purchase paid again fails with the
already-paid error (an error, not a no-op), and `mark_paid` succeeds —
setting payment_status to PAID — exactly when the caller is the buyer or a
dealership admin and the purchase is not already PAID. -/
theorem mark_paid_guard (actor : User) (p : Purchase) :
    (p.payment_status = PaymentStatus.PAID →
      (p.buyer = actor.id ∨ actor.role = Role.DEALERSHIP_ADMIN) →
      PurchaseViewSet.mark_paid actor p =
        Except.error ⟨ErrKind.badRequest, "This purchase is already paid"⟩) ∧
    (∀ q, PurchaseViewSet.mark_paid actor p = Except.ok q ↔
      ((p.buyer = actor.id ∨ actor.role = Role.DEALERSHIP_ADMIN) ∧
       p.payment_status ≠ PaymentStatus.PAID ∧
       q = { p with payment_status := PaymentStatus.PAID })) := by
  unfold PurchaseViewSet.mark_paid
  refine ⟨fun hpaid hauthz => ?_, fun q => ?_⟩
  · have hn : ¬ (p.buyer ≠ actor.id ∧ actor.role ≠ Role.DEALERSHIP_ADMIN) := by
      tauto
    rw [if_neg hn, if_pos hpaid]
  · constructor
    · intro hok
      split_ifs at hok with h1 h2
      rw [Except.ok.injEq] at hok
      exact ⟨by tauto, h2, hok.symm⟩
    · rintro ⟨hauthz, hnp, rfl⟩
      have hn : ¬ (p.buyer ≠ actor.id ∧ actor.role ≠ Role.DEALERSHIP_ADMIN) := by
        tauto
      rw [if_neg hn, if_neg hnp]

/-- Witness for C6: the guard instantiated on a PAID purchase and its
buyer: the repeat `mark_paid` returns the already-paid error. -/
theorem mark_paid_guard_witness :
    PurchaseViewSet.mark_paid renterU paidPurchase =
      Except.error ⟨ErrKind.badRequest, "This purchase is already paid"⟩ :=
  (mark_paid_guard renterU paidPurchase).1 rfl (Or.inl rfl)

/-- Counterexample for C7: `mark_failed` has no payment-status guard.
Invoked by the buyer on an already-PAID purchase it succeeds, marks the
purchase FAILED and reverts the linked sold car to APPROVED, although the
claim says mark_failed is a transition from PENDING only. -/
theorem mark_failed_from_paid_counterexample :
    PurchaseViewSet.mark_failed renterU paidPurchase soldCarD1 =
      Except.ok ({ paidPurchase with payment_status := PaymentStatus.FAILED },
                 { soldCarD1 with status := CarStatus.APPROVED }) := by
  rfl

/-- Claim C7 (amended): `mark_failed`, invoked by the buyer or any
dealership admin, succeeds from every payment status — there is no
PENDING-only precondition — setting payment_status to FAILED and reverting
the linked car to APPROVED; it fails only on the authorization guard. -/
theorem mark_failed_spec (actor : User) (p : Purchase) (c : Car) :
    ∀ q c2, PurchaseViewSet.mark_failed actor p c = Except.ok (q, c2) ↔
      ((p.buyer = actor.id ∨ actor.role = Role.DEALERSHIP_ADMIN) ∧
       q = { p with payment_status := PaymentStatus.FAILED } ∧
       c2 = { c with status := CarStatus.APPROVED }) := by
  intro q c2
  unfold PurchaseViewSet.mark_failed
  constructor
  · intro hok
    split_ifs at hok with h1
    rw [Except.ok.injEq, Prod.mk.injEq] at hok
    exact ⟨by tauto, hok.1.symm, hok.2.symm⟩
  · rintro ⟨hauthz, rfl, rfl⟩
    have hn : ¬ (p.buyer ≠ actor.id ∧ actor.role ≠ Role.DEALERSHIP_ADMIN) := by
      tauto
    rw [if_neg hn]

/-- Claim C9: on purchase creation the stored car is replaced by a copy
whose status is SOLD with `is_for_sale`/`is_for_rent` (and every other
field) unchanged, while the dedicated `mark_sold` action stores a copy with
status SOLD and both flags cleared and every other field unchanged. -/
theorem sold_paths_frame (actor : User) (cars : List Car) (ps : List Purchase)
    (newId carId : Nat) (c : Car) :
    (∀ ps2 cars2, cars.find? (fun x => x.id == carId) = some c →
      PurchaseViewSet.create actor cars ps newId carId =
        Except.ok (ps2, cars2) →
      ∃ c2, cars2 = cars.map (fun x => if x.id = c.id then c2 else x) ∧
        c2.status = CarStatus.SOLD ∧
        c2.is_for_sale = c.is_for_sale ∧ c2.is_for_rent = c.is_for_rent ∧
        c2.id = c.id ∧ c2.dealership = c.dealership ∧ c2.seller = c.seller ∧
        c2.is_company_owned = c.is_company_owned ∧ c2.price = c.price ∧
        c2.rental_price_per_day = c.rental_price_per_day ∧
        c2.approved_by = c.approved_by ∧ c2.approved_at = c.approved_at) ∧
    (∀ c2, CarViewSet.mark_sold actor c = Except.ok c2 →
      c2.status = CarStatus.SOLD ∧ c2.is_for_sale = false ∧
      c2.is_for_rent = false ∧
      c2.id = c.id ∧ c2.dealership = c.dealership ∧ c2.seller = c.seller ∧
      c2.is_company_owned = c.is_company_owned ∧ c2.price = c.price ∧
      c2.rental_price_per_day = c.rental_price_per_day ∧
      c2.approved_by = c.approved_by ∧ c2.approved_at = c.approved_at) := by
  constructor
  · intro ps2 cars2 hfind hok
    unfold PurchaseViewSet.create at hok
    rw [hfind] at hok
    simp only at hok
    split_ifs at hok with h1 h2 h3
    rw [Except.ok.injEq, Prod.mk.injEq] at hok
    exact ⟨_, hok.2.symm, rfl, rfl, rfl, rfl, rfl, rfl, rfl, rfl, rfl, rfl, rfl⟩
  · intro c2 hok
    unfold CarViewSet.mark_sold at hok
    split_ifs at hok with h1
    rw [Except.ok.injEq] at hok
    subst hok
    exact ⟨rfl, rfl, rfl, rfl, rfl, rfl, rfl, rfl, rfl, rfl, rfl⟩

/-- Witness for C9: `mark_sold` on the concrete approved car, hypothesis
discharged by evaluation. -/
theorem sold_paths_frame_witness :
    soldFlaggedCarD1.status = CarStatus.SOLD ∧
    soldFlaggedCarD1.is_for_sale = false ∧
    soldFlaggedCarD1.is_for_rent = false ∧
    soldFlaggedCarD1.id = carD1.id ∧
    soldFlaggedCarD1.dealership = carD1.dealership ∧
    soldFlaggedCarD1.seller = carD1.seller ∧
    soldFlaggedCarD1.is_company_owned = carD1.is_company_owned ∧
    soldFlaggedCarD1.price = carD1.price ∧
    soldFlaggedCarD1.rental_price_per_day = carD1.rental_price_per_day ∧
    soldFlaggedCarD1.approved_by = carD1.approved_by ∧
    soldFlaggedCarD1.approved_at = carD1.approved_at :=
  (sold_paths_frame adminD1 [] [] 0 0 carD1).2 soldFlaggedCarD1 (by rfl)

/-- Claim C5: creating a purchase for a SOLD car always fails; creating a
second purchase for a car that already has one always fails; and purchase
creation preserves the at-most-one-purchase-per-car invariant, so no store
reachable through creation holds two purchases of one car. -/
theorem purchase_create_unique (actor : User) (cars : List Car)
    (ps : List Purchase) (newId carId : Nat) (c : Car)
    (hfind : cars.find? (fun x => x.id == carId) = some c) :
    (c.status = CarStatus.SOLD →
      ∃ m, PurchaseViewSet.create actor cars ps newId carId =
        Except.error ⟨ErrKind.badRequest, m⟩) ∧
    ((∃ p ∈ ps, p.car = c.id) →
      ∃ m, PurchaseViewSet.create actor cars ps newId carId =
        Except.error ⟨ErrKind.badRequest, m⟩) ∧
    (atMostOnePurchasePerCar ps →
      ∀ ps2 cars2, PurchaseViewSet.create actor cars ps newId carId =
        Except.ok (ps2, cars2) → atMostOnePurchasePerCar ps2) := by
  unfold PurchaseViewSet.create
  rw [hfind]
  simp only
  refine ⟨fun hsold => ?_, fun hex => ?_, fun hinv ps2 cars2 hok => ?_⟩
  · rw [if_pos hsold]
    exact ⟨_, rfl⟩
  · by_cases h1 : c.status = CarStatus.SOLD
    · rw [if_pos h1]; exact ⟨_, rfl⟩
    rw [if_neg h1]
    by_cases h2 : ¬ c.is_for_sale ∨ c.status ≠ CarStatus.APPROVED
    · rw [if_pos h2]; exact ⟨_, rfl⟩
    rw [if_neg h2]
    have hany : ps.any (fun p => p.car == c.id) = true := by
      rcases hex with ⟨p, hp, hpc⟩
      exact List.any_eq_true.mpr ⟨p, hp, by simp [hpc]⟩
    rw [if_pos hany]
    exact ⟨_, rfl⟩
  · split_ifs at hok with h1 h2 h3
    rw [Except.ok.injEq, Prod.mk.injEq] at hok
    obtain ⟨hps2, _⟩ := hok
    subst hps2
    intro p1 hp1 p2 hp2 hcar
    rw [List.mem_append] at hp1 hp2
    have hnone : ∀ p ∈ ps, p.car ≠ c.id := by
      intro p hp hpc
      have : ps.any (fun p => p.car == c.id) = true :=
        List.any_eq_true.mpr ⟨p, hp, by simp [hpc]⟩
      exact h3 this
    rcases hp1 with hp1 | hp1 <;> rcases hp2 with hp2 | hp2
    · exact hinv p1 hp1 p2 hp2 hcar
    · rw [List.mem_singleton] at hp2
      subst hp2
      exact absurd hcar (hnone p1 hp1)
    · rw [List.mem_singleton] at hp1
      subst hp1
      exact absurd hcar.symm (hnone p2 hp2)
    · rw [List.mem_singleton] at hp1 hp2
      rw [hp1, hp2]

/-- Witness for C5: the three guarantees instantiated on a store holding
only the sold car, hypotheses discharged by evaluation. -/
theorem purchase_create_unique_witness :
    (soldCarD1.status = CarStatus.SOLD →
      ∃ m, PurchaseViewSet.create renterU [soldCarD1] [] 7 1 =
        Except.error ⟨ErrKind.badRequest, m⟩) ∧
    ((∃ p ∈ ([] : List Purchase), p.car = soldCarD1.id) →
      ∃ m, PurchaseViewSet.create renterU [soldCarD1] [] 7 1 =
        Except.error ⟨ErrKind.badRequest, m⟩) ∧
    (atMostOnePurchasePerCar [] →
      ∀ ps2 cars2, PurchaseViewSet.create renterU [soldCarD1] [] 7 1 =
        Except.ok (ps2, cars2) → atMostOnePurchasePerCar ps2) :=
  purchase_create_unique renterU [soldCarD1] [] 7 1 soldCarD1 rfl

/-- Counterexample for C3: the DEALERSHIP_ADMIN of dealership 2 invokes
mark_paid on a purchase of car 1, which belongs to dealership 1: the
operation succeeds and sets payment_status to PAID, although the claim says
every cross-dealership transition fails with an authorization error and
leaves the entity unchanged. -/
theorem cross_dealership_mark_paid_counterexample :
    PurchaseViewSet.mark_paid adminD2 purchaseP1 =
      Except.ok { purchaseP1 with payment_status := PaymentStatus.PAID } := by
  rfl

/-- Claim C3 (amended): for a DEALERSHIP_ADMIN whose dealership differs
from the entity's, booking approve/reject/start_rental/complete_rental and
car approve/reject fail closed with an authorization error; but booking
cancel, car mark_sold and purchase mark_paid/mark_failed check only role
(or renter/buyer identity), so the cross-dealership admin passes their
guards and those operations go through. -/
theorem cross_dealership_admin_guards (actor : User) (car : Car) (b : Booking)
    (p : Purchase) (c : Car) (now : Nat)
    (hrole : actor.role = Role.DEALERSHIP_ADMIN)
    (hdb : actor.dealership ≠ some car.dealership)
    (hdc : actor.dealership ≠ some c.dealership) :
    (∃ m, RentalBookingViewSet.approve actor car b =
      Except.error ⟨ErrKind.forbidden, m⟩) ∧
    (∃ m, RentalBookingViewSet.reject actor car b =
      Except.error ⟨ErrKind.forbidden, m⟩) ∧
    (∃ m, RentalBookingViewSet.start_rental actor car b =
      Except.error ⟨ErrKind.forbidden, m⟩) ∧
    (∃ m, RentalBookingViewSet.complete_rental actor car b =
      Except.error ⟨ErrKind.forbidden, m⟩) ∧
    (∃ m, CarViewSet.approve actor now c =
      Except.error ⟨ErrKind.forbidden, m⟩) ∧
    (∃ m, CarViewSet.reject actor now c =
      Except.error ⟨ErrKind.forbidden, m⟩) ∧
    (b.status = BookingStatus.PENDING →
      RentalBookingViewSet.cancel actor b =
        Except.ok { b with status := BookingStatus.CANCELLED }) ∧
    (CarViewSet.mark_sold actor c =
      Except.ok { c with status := CarStatus.SOLD, is_for_sale := false, is_for_rent := false }) ∧
    (p.payment_status ≠ PaymentStatus.PAID →
      PurchaseViewSet.mark_paid actor p =
        Except.ok { p with payment_status := PaymentStatus.PAID }) ∧
    (PurchaseViewSet.mark_failed actor p c =
      Except.ok ({ p with payment_status := PaymentStatus.FAILED },
                 { c with status := CarStatus.APPROVED })) := by
  refine ⟨?_, ?_, ?_, ?_, ?_, ?_, ?_, ?_, ?_, ?_⟩
  · refine ⟨"You are not authorized to approve this booking", ?_⟩
    unfold RentalBookingViewSet.approve
    rw [if_pos (Or.inr hdb)]
  · refine ⟨"You are not authorized to reject this booking", ?_⟩
    unfold RentalBookingViewSet.reject
    rw [if_pos (Or.inr hdb)]
  · refine ⟨"You are not authorized to start this rental", ?_⟩
    unfold RentalBookingViewSet.start_rental
    rw [if_pos (Or.inr hdb)]
  · refine ⟨"You are not authorized to complete this rental", ?_⟩
    unfold RentalBookingViewSet.complete_rental
    rw [if_pos (Or.inr hdb)]
  · refine ⟨"You are not authorized to approve this car", ?_⟩
    unfold CarViewSet.approve
    rw [if_pos (Or.inr hdc)]
  · refine ⟨"You are not authorized to reject this car", ?_⟩
    unfold CarViewSet.reject
    rw [if_pos (Or.inr hdc)]
  · intro hb
    unfold RentalBookingViewSet.cancel
    rw [if_neg (fun h => h.2 hrole), if_neg (fun h => h.1 hb)]
  · unfold CarViewSet.mark_sold
    rw [if_neg (fun h => h.2.1 hrole)]
  · intro hnp
    unfold PurchaseViewSet.mark_paid
    rw [if_neg (fun h => h.2 hrole), if_neg hnp]
  · unfold PurchaseViewSet.mark_failed
    rw [if_neg (fun h => h.2 hrole)]

/-- Witness for C3 (amended): the dealership-2 admin and dealership-1
entities: approve is refused, mark_failed goes through. -/
theorem cross_dealership_admin_guards_witness :
    adminD2.role = Role.DEALERSHIP_ADMIN ∧
    adminD2.dealership ≠ some carD1.dealership ∧
    (∃ m, RentalBookingViewSet.approve adminD2 carD1 pendingB1 =
      Except.error ⟨ErrKind.forbidden, m⟩) ∧
    (PurchaseViewSet.mark_failed adminD2 purchaseP1 carD1 =
      Except.ok ({ purchaseP1 with payment_status := PaymentStatus.FAILED },
                 { carD1 with status := CarStatus.APPROVED })) :=
  ⟨rfl, by decide,
   (cross_dealership_admin_guards adminD2 carD1 pendingB1 purchaseP1 carD1 0
     rfl (by decide) (by decide)).1,
   (cross_dealership_admin_guards adminD2 carD1 pendingB1 purchaseP1 carD1 0
     rfl (by decide) (by decide)).2.2.2.2.2.2.2.2.2⟩

/-- Claim C8: a SUPER_ADMIN approving a PENDING registration request
appends exactly one DealershipCompany whose name, email, phone, city and
license fields match the request, stamped with approver and timestamp, and
marks the request APPROVED; and any non-PENDING request (APPROVED or
REJECTED) is terminal: every further approve or reject call returns an
error, so no state is written. -/
theorem company_registration_approve_spec (actor : User) (now newId : Nat)
    (r : RegRequest) (companies : List DealershipCompany)
    (hrole : actor.role = Role.SUPER_ADMIN)
    (hst : r.status = ReqStatus.PENDING) :
    (∃ r2 d, CompanyRegistrationViewSet.approve actor now newId r companies =
        Except.ok (r2, companies ++ [d]) ∧
      d.name = r.company_name ∧ d.email = r.company_email ∧
      d.phone = r.company_phone ∧ d.city = r.company_city ∧
      d.license_number = r.company_license_number ∧
      d.approved_by = some actor.id ∧ d.approved_at = now ∧
      r2.status = ReqStatus.APPROVED) ∧
    (∀ r3 : RegRequest, r3.status ≠ ReqStatus.PENDING →
      (∀ (a2 : User) (n2 i2 : Nat) (cs2 : List DealershipCompany),
        ∃ e, CompanyRegistrationViewSet.approve a2 n2 i2 r3 cs2 =
          Except.error e) ∧
      (∀ (a2 : User) (n2 : Nat),
        ∃ e, CompanyRegistrationViewSet.reject a2 n2 r3 =
          Except.error e)) := by
  constructor
  · unfold CompanyRegistrationViewSet.approve
    rw [if_neg (not_not_intro hrole), if_neg (not_not_intro hst)]
    exact ⟨_, _, rfl, rfl, rfl, rfl, rfl, rfl, rfl, rfl, rfl⟩
  · intro r3 hr3
    constructor
    · intro a2 n2 i2 cs2
      unfold CompanyRegistrationViewSet.approve
      by_cases hr : a2.role = Role.SUPER_ADMIN
      · rw [if_neg (not_not_intro hr), if_pos hr3]
        exact ⟨_, rfl⟩
      · rw [if_pos hr]
        exact ⟨_, rfl⟩
    · intro a2 n2
      unfold CompanyRegistrationViewSet.reject
      by_cases hr : a2.role = Role.SUPER_ADMIN
      · rw [if_neg (not_not_intro hr), if_pos hr3]
        exact ⟨_, rfl⟩
      · rw [if_pos hr]
        exact ⟨_, rfl⟩

/-- Witness for C8: the superadmin approves the concrete PENDING request. -/
theorem company_registration_approve_spec_witness :
    superA.role = Role.SUPER_ADMIN ∧
    pendingRequest.status = ReqStatus.PENDING ∧
    (∃ r2 d, CompanyRegistrationViewSet.approve superA 5 9 pendingRequest [] =
        Except.ok (r2, [] ++ [d]) ∧
      d.name = pendingRequest.company_name ∧
      d.email = pendingRequest.company_email ∧
      d.phone = pendingRequest.company_phone ∧
      d.city = pendingRequest.company_city ∧
      d.license_number = pendingRequest.company_license_number ∧
      d.approved_by = some superA.id ∧ d.approved_at = 5 ∧
      r2.status = ReqStatus.APPROVED) :=
  ⟨rfl, rfl,
   (company_registration_approve_spec superA 5 9 pendingRequest [] rfl rfl).1⟩

/-- Counterexample for C4: start_rental invoked by the right dealership
admin on a PENDING booking fails as the table requires, but its error
message names the required status APPROVED, not the booking's current
status PENDING, contradicting the claim that every invalid-transition
message names the current status. -/
theorem transitionBooking_message_counterexample :
    transitionBooking adminD1 carD1 pendingB1 BookingAction.start_rental =
      Except.error ⟨ErrKind.badRequest,
        "Can only start rentals with APPROVED status"⟩ ∧
    ¬ (pendingB1.status.str.toList <:+:
        "Can only start rentals with APPROVED status".toList) :=
  ⟨by rfl, by decide⟩

/-- Claim C4 (amended): for an actor passing the action's authorization
guard, a booking action succeeds exactly on the table
PENDING→APPROVED (approve), PENDING→CANCELLED (reject, cancel),
APPROVED→ACTIVE (start_rental), APPROVED→CANCELLED (cancel),
ACTIVE→COMPLETED (complete_rental); every other (status, action) pair
fails with a bad-request error — whose message names the current status
for approve and reject (the remaining actions name the required status
instead). -/
theorem transitionBooking_table (actor : User) (car : Car) (b : Booking)
    (a : BookingAction) (hauth : bookingAuthOk actor car b a) :
    (allowedBySpec b.status a = true →
      transitionBooking actor car b a =
        Except.ok { b with status := actionTarget a }) ∧
    (allowedBySpec b.status a = false →
      ∃ m, transitionBooking actor car b a =
          Except.error ⟨ErrKind.badRequest, m⟩ ∧
        ((a = BookingAction.approve ∨ a = BookingAction.reject) →
          b.status.str.toList <:+: m.toList)) := by
  cases a
  case approve =>
    obtain ⟨h1, h2⟩ := hauth
    have hno : ¬ (actor.role ≠ Role.DEALERSHIP_ADMIN ∨
        actor.dealership ≠ some car.dealership) := by simp [h1, h2]
    cases hst : b.status
    case PENDING =>
      refine ⟨fun _ => ?_, fun hf => absurd hf (by decide)⟩
      unfold transitionBooking RentalBookingViewSet.approve
      rw [if_neg hno, if_neg (not_not_intro hst)]
      rfl
    case APPROVED =>
      refine ⟨fun ht => absurd ht (by decide), fun _ => ?_⟩
      refine ⟨"Cannot approve a booking with status: APPROVED",
        ?_, fun _ => by decide⟩
      unfold transitionBooking RentalBookingViewSet.approve
      rw [if_neg hno, if_pos (by simp [hst]), hst]
      rfl
    case ACTIVE =>
      refine ⟨fun ht => absurd ht (by decide), fun _ => ?_⟩
      refine ⟨"Cannot approve a booking with status: ACTIVE",
        ?_, fun _ => by decide⟩
      unfold transitionBooking RentalBookingViewSet.approve
      rw [if_neg hno, if_pos (by simp [hst]), hst]
      rfl
    case COMPLETED =>
      refine ⟨fun ht => absurd ht (by decide), fun _ => ?_⟩
      refine ⟨"Cannot approve a booking with status: COMPLETED",
        ?_, fun _ => by decide⟩
      unfold transitionBooking RentalBookingViewSet.approve
      rw [if_neg hno, if_pos (by simp [hst]), hst]
      rfl
    case CANCELLED =>
      refine ⟨fun ht => absurd ht (by decide), fun _ => ?_⟩
      refine ⟨"Cannot approve a booking with status: CANCELLED",
        ?_, fun _ => by decide⟩
      unfold transitionBooking RentalBookingViewSet.approve
      rw [if_neg hno, if_pos (by simp [hst]), hst]
      rfl
  case reject =>
    obtain ⟨h1, h2⟩ := hauth
    have hno : ¬ (actor.role ≠ Role.DEALERSHIP_ADMIN ∨
        actor.dealership ≠ some car.dealership) := by simp [h1, h2]
    cases hst : b.status
    case PENDING =>
      refine ⟨fun _ => ?_, fun hf => absurd hf (by decide)⟩
      unfold transitionBooking RentalBookingViewSet.reject
      rw [if_neg hno, if_neg (not_not_intro hst)]
      rfl
    case APPROVED =>
      refine ⟨fun ht => absurd ht (by decide), fun _ => ?_⟩
      refine ⟨"Cannot reject a booking with status: APPROVED",
        ?_, fun _ => by decide⟩
      unfold transitionBooking RentalBookingViewSet.reject
      rw [if_neg hno, if_pos (by simp [hst]), hst]
      rfl
    case ACTIVE =>
      refine ⟨fun ht => absurd ht (by decide), fun _ => ?_⟩
      refine ⟨"Cannot reject a booking with status: ACTIVE",
        ?_, fun _ => by decide⟩
      unfold transitionBooking RentalBookingViewSet.reject
      rw [if_neg hno, if_pos (by simp [hst]), hst]
      rfl
    case COMPLETED =>
      refine ⟨fun ht => absurd ht (by decide), fun _ => ?_⟩
      refine ⟨"Cannot reject a booking with status: COMPLETED",
        ?_, fun _ => by decide⟩
      unfold transitionBooking RentalBookingViewSet.reject
      rw [if_neg hno, if_pos (by simp [hst]), hst]
      rfl
    case CANCELLED =>
      refine ⟨fun ht => absurd ht (by decide), fun _ => ?_⟩
      refine ⟨"Cannot reject a booking with status: CANCELLED",
        ?_, fun _ => by decide⟩
      unfold transitionBooking RentalBookingViewSet.reject
      rw [if_neg hno, if_pos (by simp [hst]), hst]
      rfl
  case start_rental =>
    obtain ⟨h1, h2⟩ := hauth
    have hno : ¬ (actor.role ≠ Role.DEALERSHIP_ADMIN ∨
        actor.dealership ≠ some car.dealership) := by simp [h1, h2]
    cases hst : b.status
    case APPROVED =>
      refine ⟨fun _ => ?_, fun hf => absurd hf (by decide)⟩
      unfold transitionBooking RentalBookingViewSet.start_rental
      rw [if_neg hno, if_neg (not_not_intro hst)]
      rfl
    all_goals
      refine ⟨fun ht => absurd ht (by decide), fun _ => ?_⟩
    all_goals
      refine ⟨"Can only start rentals with APPROVED status",
        ?_, fun hc => absurd hc (by decide)⟩
    all_goals
      unfold transitionBooking RentalBookingViewSet.start_rental
    all_goals
      rw [if_neg hno, if_pos (by simp [hst])]
  case complete_rental =>
    obtain ⟨h1, h2⟩ := hauth
    have hno : ¬ (actor.role ≠ Role.DEALERSHIP_ADMIN ∨
        actor.dealership ≠ some car.dealership) := by simp [h1, h2]
    cases hst : b.status
    case ACTIVE =>
      refine ⟨fun _ => ?_, fun hf => absurd hf (by decide)⟩
      unfold transitionBooking RentalBookingViewSet.complete_rental
      rw [if_neg hno, if_neg (not_not_intro hst)]
      rfl
    all_goals
      refine ⟨fun ht => absurd ht (by decide), fun _ => ?_⟩
    all_goals
      refine ⟨"Can only complete rentals with ACTIVE status",
        ?_, fun hc => absurd hc (by decide)⟩
    all_goals
      unfold transitionBooking RentalBookingViewSet.complete_rental
    all_goals
      rw [if_neg hno, if_pos (by simp [hst])]
  case cancel =>
    have hno : ¬ (b.user ≠ actor.id ∧ actor.role ≠ Role.DEALERSHIP_ADMIN) := by
      simp only [bookingAuthOk] at hauth
      tauto
    cases hst : b.status
    case PENDING =>
      refine ⟨fun _ => ?_, fun hf => absurd hf (by decide)⟩
      unfold transitionBooking RentalBookingViewSet.cancel
      rw [if_neg hno, if_neg (by simp [hst])]
      rfl
    case APPROVED =>
      refine ⟨fun _ => ?_, fun hf => absurd hf (by decide)⟩
      unfold transitionBooking RentalBookingViewSet.cancel
      rw [if_neg hno, if_neg (by simp [hst])]
      rfl
    all_goals
      refine ⟨fun ht => absurd ht (by decide), fun _ => ?_⟩
    all_goals
      refine ⟨"Can only cancel PENDING or APPROVED bookings",
        ?_, fun hc => absurd hc (by decide)⟩
    all_goals
      unfold transitionBooking RentalBookingViewSet.cancel
    all_goals
      rw [if_neg hno, if_pos (by simp [hst])]

/-- Witness for C4 (amended): the table instantiated for the dealership-1
admin approving the PENDING booking, hypotheses discharged concretely. -/
theorem transitionBooking_table_witness :
    bookingAuthOk adminD1 carD1 pendingB1 BookingAction.approve ∧
    (allowedBySpec pendingB1.status BookingAction.approve = true →
      transitionBooking adminD1 carD1 pendingB1 BookingAction.approve =
        Except.ok { pendingB1 with status := BookingStatus.APPROVED }) :=
  ⟨⟨rfl, rfl⟩,
   (transitionBooking_table adminD1 carD1 pendingB1 BookingAction.approve
     ⟨rfl, rfl⟩).1⟩

end AutoHub
